import Mathlib

/-!
Verification model of the DataHub REST sink
(src/metadata-ingestion/src/datahub/ingestion/sink/datahub_rest.py).

The Python method DatahubRestSink.write_record_async is embedded as a pure
function over an explicit state: the SinkReport, the list of callback
invocations performed, the state of the raised OperationalError's info
dictionary after the call (Python mutates that dict in place), and the
exception, if any, that propagates out of the method.  Python dictionaries
are modelled as insertion-ordered association lists, and Python string
operations (str.split on a newline, str.join) are modelled by structurally
recursive functions with the same semantics.
-/

/-- A value stored in an OperationalError's info dictionary.  Python allows
arbitrary values; the model distinguishes strings (on which trimming
succeeds), the Python None value, and non-string values (on which the
trimming expression raises and is swallowed). -/
inductive Value where
  | str : String → Value
  | intVal : Int → Value
  | noneVal : Value
  deriving DecidableEq, Repr

/-- A Python dict with string keys, as an insertion-ordered association
list (keys are unique in any dict produced by the program). -/
abbrev InfoMap : Type := List (String × Value)

/-- Python dict lookup: first binding of the key, if any. -/
def dictGet : InfoMap → String → Option Value
  | [], _ => Option.none
  | (k', v) :: rest, k => if k' = k then some v else dictGet rest k

/-- Python membership test: `k in d`. -/
def dictContains (d : InfoMap) (k : String) : Bool :=
  (dictGet d k).isSome

/-- Python dict assignment `d[k] = v`: overwrite in place, keeping the
original position of an existing key, appending a new key at the end. -/
def dictSet : InfoMap → String → Value → InfoMap
  | [], k, v => [(k, v)]
  | (k', v') :: rest, k, v =>
      if k' = k then (k, v) :: rest else (k', v') :: dictSet rest k v

/-- Python single-character str.split: split on the separator, keeping
empty pieces, so that an empty string yields one empty piece. -/
def splitChars (sep : Char) : List Char → List (List Char)
  | [] => [[]]
  | c :: cs =>
      match splitChars sep cs with
      | [] => if c = sep then [[], []] else [[c]]
      | h :: t => if c = sep then [] :: h :: t else (c :: h) :: t

/-- Python `s.split(sep)` for a one-character separator string. -/
def pySplit (sep : Char) (s : String) : List String :=
  (splitChars sep s.data).map List.asString

/-- Python `sep.join(pieces)`. -/
def pyJoin (sep : String) : List String → String
  | [] => ""
  | [x] => x
  | x :: xs => x ++ sep ++ pyJoin sep xs

/-- The trimming expression from the source, modelled on one value:
`"\n".join(v.split("\n")[0:2])`.  A non-string value has no split method,
so the expression raises (modelled as Option.none, the swallowed case). -/
def trimValue : Value → Option Value
  | Value.str s => some (Value.str (pyJoin "\n" ((pySplit '\n' s).take 2)))
  | _ => Option.none

/-- The stack-trace trimming block from the source: if the info dict has a
stackTrace key, try to replace its value with the first two lines; a
trimming failure is swallowed and the value is left untouched. -/
def trimStackTrace (info : InfoMap) : InfoMap :=
  if dictContains info "stackTrace" then
    match dictGet info "stackTrace" with
    | Option.none => info
    | some v =>
        match trimValue v with
        | some v' => dictSet info "stackTrace" v'
        | Option.none => info
  else info

/-- The structured operational failure raised by the transport client:
a message and an info dictionary. -/
structure OperationalError where
  message : String
  info : InfoMap
  deriving DecidableEq, Repr

/-- Any other Python exception, identified by its class name and message. -/
structure PyException where
  excName : String
  excMessage : String
  deriving DecidableEq, Repr

/-- An exception raised during the try-body of write_record_async: either
the structured OperationalError or any other exception class. -/
inductive EmitException where
  | operational : OperationalError → EmitException
  | otherExc : PyException → EmitException
  deriving DecidableEq, Repr

/-- The except-clause dispatch of write_record_async: an exception is
routed to the operational handler exactly when it is an instance of
OperationalError; every other class goes to the generic handler. -/
def classify : EmitException → Bool
  | EmitException.operational _ => true
  | EmitException.otherExc _ => false

/-- Replace the human-readable message of an exception, leaving its class
and all other fields unchanged (used to state that routing is type-level
only). -/
def withMessage : EmitException → String → EmitException
  | EmitException.operational e, m => EmitException.operational { e with message := m }
  | EmitException.otherExc pe, m => EmitException.otherExc { pe with excMessage := m }

/-- The record variants accepted by write_record_async.  Only the
MetadataChangeProposalWrapper variant exposes an entity urn (an optional
string); the payloads are otherwise opaque to the sink. -/
inductive Record where
  | metadataChangeEvent : Nat → Record
  | metadataChangeProposal : Nat → Record
  | metadataChangeProposalWrapper : Option String → Nat → Record
  | usageAggregation : Nat → Record
  deriving DecidableEq, Repr

/-- Conversion of the optional entityUrn to the dict value stored under
the id key (Python stores None when the urn is absent). -/
def optionalStr : Option String → Value
  | some s => Value.str s
  | Option.none => Value.noneVal

/-- A record plus run-scoped metadata (the originating work unit's id). -/
structure RecordEnvelope where
  record : Record
  workunitId : String
  deriving DecidableEq, Repr

/-- A diagnostic entry stored in the report, mirroring the dict literals
of the source: a failure entry of the form with keys error and info, a
failure entry of the form with key e holding the raw exception, and a
warning entry with keys warning and info. -/
inductive ReportEntry where
  | failureErrorInfo : String → InfoMap → ReportEntry
  | failureExc : PyException → ReportEntry
  | warningInfo : String → InfoMap → ReportEntry
  deriving DecidableEq, Repr

/-- Modelled from the spec: the Report component
(datahub.ingestion.api.sink.SinkReport, not under src/) is a mutable
aggregate holding a counter of records written and lists of warning and
failure diagnostic entries; report_record_written increments the counter,
report_warning and report_failure append one entry. -/
structure SinkReport where
  records_written : Nat
  warnings : List ReportEntry
  failures : List ReportEntry
  deriving DecidableEq, Repr

def SinkReport.report_record_written (r : SinkReport) : SinkReport :=
  { r with records_written := r.records_written + 1 }

def SinkReport.report_warning (r : SinkReport) (w : ReportEntry) : SinkReport :=
  { r with warnings := r.warnings ++ [w] }

def SinkReport.report_failure (r : SinkReport) (f : ReportEntry) : SinkReport :=
  { r with failures := r.failures ++ [f] }

def SinkReport.empty : SinkReport :=
  { records_written := 0, warnings := [], failures := [] }

/-- One recorded callback invocation: on_success with its metadata map, or
on_failure with the error object's state at call time and the info map
passed alongside it. -/
inductive CallbackCall where
  | onSuccess : RecordEnvelope → InfoMap → CallbackCall
  | onFailure : RecordEnvelope → EmitException → InfoMap → CallbackCall
  deriving DecidableEq, Repr

/-- The behaviour of the caller-supplied callback: each method either
returns normally (Option.none) or raises the given exception. -/
structure CallbackBehavior where
  onSuccessExc : Option EmitException
  onFailureExc : Option PyException
  deriving DecidableEq, Repr

/-- Everything observable about one write_record_async call: the report
after the call, the callback invocations in order, the state of the
operational error's info dict after the call (Python mutates it in
place; Option.none when no operational error was handled), and the
exception propagating out of the method, if any. -/
structure WriteOutcome where
  report : SinkReport
  calls : List CallbackCall
  errorInfoAfter : Option InfoMap
  raised : Option EmitException
  deriving DecidableEq, Repr

/-- The two except clauses of write_record_async.  An exception raised
inside an except handler (here: by the on_failure callback) is not caught
by the sibling clause and propagates out of the method. -/
def handleException (flag : Bool) (env : RecordEnvelope) (cb : CallbackBehavior)
    (report : SinkReport) (callsSoFar : List CallbackCall) :
    EmitException → WriteOutcome
  | EmitException.operational e =>
      if !flag then
        let report1 := report.report_failure (ReportEntry.failureErrorInfo e.message e.info)
        { report := report1
          calls := callsSoFar ++ [CallbackCall.onFailure env (EmitException.operational e) e.info]
          errorInfoAfter := some e.info
          raised := cb.onFailureExc.map EmitException.otherExc }
      else
        let info1 := trimStackTrace e.info
        let info2 :=
          match env.record with
          | Record.metadataChangeProposalWrapper urn _ => dictSet info1 "id" (optionalStr urn)
          | _ => info1
        let report1 := report.report_warning (ReportEntry.warningInfo e.message info2)
        { report := report1
          calls := callsSoFar ++
            [CallbackCall.onFailure env
              (EmitException.operational { message := e.message, info := info2 }) info2]
          errorInfoAfter := some info2
          raised := cb.onFailureExc.map EmitException.otherExc }
  | EmitException.otherExc pe =>
      let report1 := report.report_failure (ReportEntry.failureExc pe)
      { report := report1
        calls := callsSoFar ++ [CallbackCall.onFailure env (EmitException.otherExc pe) []]
        errorInfoAfter := Option.none
        raised := cb.onFailureExc.map EmitException.otherExc }

/-- DatahubRestSink.write_record_async, over an explicit emission result
(what self.emitter.emit(record) did) and the latched policy flag.  On
success the report is updated and on_success invoked; an exception raised
by the try-body (the emission, or the on_success callback) is dispatched
to the except clauses. -/
def write_record_async (flag : Bool) (env : RecordEnvelope) (cb : CallbackBehavior)
    (emitResult : Except EmitException Unit) (report : SinkReport) : WriteOutcome :=
  match emitResult with
  | Except.ok _ =>
      let report1 := report.report_record_written
      match cb.onSuccessExc with
      | Option.none =>
          { report := report1
            calls := [CallbackCall.onSuccess env []]
            errorInfoAfter := Option.none
            raised := Option.none }
      | some ex => handleException flag env cb report1 [CallbackCall.onSuccess env []] ex
  | Except.error ex => handleException flag env cb report [] ex

/-- A work unit: the metadata variant carries the treat_errors_as_warnings
flag read by handle_work_unit_start; other variants are ignored. -/
inductive WorkUnit where
  | metadata : String → Bool → WorkUnit
  | nonMetadata : String → WorkUnit
  deriving DecidableEq, Repr

/-- The sink state relevant to the claims: the report and the latched
policy flag. -/
structure SinkState where
  report : SinkReport
  treat_errors_as_warnings : Bool
  deriving DecidableEq, Repr

/-- DatahubRestSink construction: the dataclass declares
treat_errors_as_warnings with default False and the handwritten init does
not assign it, so a new sink starts with the flag false and a fresh
report. -/
def DatahubRestSink.init : SinkState :=
  { report := SinkReport.empty, treat_errors_as_warnings := false }

/-- DatahubRestSink.handle_work_unit_start: latch the flag from a
MetadataWorkUnit; any other work unit leaves the state unchanged. -/
def handle_work_unit_start (s : SinkState) : WorkUnit → SinkState
  | WorkUnit.metadata _ f => { s with treat_errors_as_warnings := f }
  | WorkUnit.nonMetadata _ => s

/-- A sequence of write_record_async calls against one report, each with
its own latched flag and emission result. -/
def runSink (cb : CallbackBehavior) (report : SinkReport) :
    List (Bool × RecordEnvelope × Except EmitException Unit) → SinkReport
  | [] => report
  | (flag, env, res) :: rest =>
      runSink cb (write_record_async flag env cb res report).report rest

/-- Total outcome count of a report: written plus warned plus failed. -/
def SinkReport.total (r : SinkReport) : Nat :=
  r.records_written + r.warnings.length + r.failures.length

lemma dictGet_dictSet_self (d : InfoMap) (k : String) (v : Value) :
    dictGet (dictSet d k v) k = some v := by
  induction d with
  | nil => simp [dictSet, dictGet]
  | cons p rest ih =>
    obtain ⟨k', v'⟩ := p
    by_cases h : k' = k
    · subst h
      simp [dictSet, dictGet]
    · simp [dictSet, dictGet, h, ih]

lemma dictGet_dictSet_ne (d : InfoMap) (k : String) (v : Value) (k' : String)
    (hkk : k ≠ k') : dictGet (dictSet d k v) k' = dictGet d k' := by
  induction d with
  | nil => simp [dictSet, dictGet, hkk]
  | cons p rest ih =>
    obtain ⟨k'', v''⟩ := p
    by_cases h : k'' = k
    · subst h
      simp [dictSet, dictGet, hkk]
    · simp [dictSet, dictGet, h, ih]

lemma trimStackTrace_of_str (info : InfoMap) (s : String)
    (h : dictGet info "stackTrace" = some (Value.str s)) :
    trimStackTrace info
      = dictSet info "stackTrace" (Value.str (pyJoin "\n" ((pySplit '\n' s).take 2))) := by
  simp [trimStackTrace, dictContains, h, trimValue]

lemma trimStackTrace_of_fail (info : InfoMap) (v : Value)
    (h : dictGet info "stackTrace" = some v) (hv : trimValue v = Option.none) :
    trimStackTrace info = info := by
  simp [trimStackTrace, dictContains, h, hv]

lemma dictGet_trimStackTrace_ne (info : InfoMap) (k : String) (h : k ≠ "stackTrace") :
    dictGet (trimStackTrace info) k = dictGet info k := by
  unfold trimStackTrace
  cases hg : dictGet info "stackTrace" with
  | none => simp [dictContains, hg]
  | some v =>
    cases hv : trimValue v with
    | none => simp [dictContains, hg, hv]
    | some v' => simp [dictContains, hg, hv, dictGet_dictSet_ne _ _ _ _ (Ne.symm h)]

lemma dictGet_trimStackTrace_str (info : InfoMap) (s : String)
    (h : dictGet info "stackTrace" = some (Value.str s)) :
    dictGet (trimStackTrace info) "stackTrace"
      = some (Value.str (pyJoin "\n" ((pySplit '\n' s).take 2))) := by
  rw [trimStackTrace_of_str info s h, dictGet_dictSet_self]

/-- A callback whose methods both return normally. -/
def cbOK : CallbackBehavior :=
  { onSuccessExc := Option.none, onFailureExc := Option.none }

/-- A callback whose on_failure method raises a RuntimeError. -/
def cbFailureRaises : CallbackBehavior :=
  { onSuccessExc := Option.none
    onFailureExc := some { excName := "RuntimeError", excMessage := "callback boom" } }

/-- An envelope around a record that is not a change-proposal wrapper. -/
def envMCE : RecordEnvelope :=
  { record := Record.metadataChangeEvent 0, workunitId := "wu-1" }

/-- An envelope around a change-proposal-wrapper record with an entity urn. -/
def envMCPW : RecordEnvelope :=
  { record := Record.metadataChangeProposalWrapper (some "urn:li:corpuser:u") 0
    workunitId := "wu-1" }

/-- An operational error whose info dict holds a four-line stack trace. -/
def errTrace : OperationalError :=
  { message := "rejected", info := [("stackTrace", Value.str "a\nb\nc\nd")] }

/-- A plain, non-operational exception. -/
def peValue : PyException :=
  { excName := "ValueError", excMessage := "bad payload" }

/-- C1: the claim states that the warning-path downgrade operates on a
shallow copy and the original OperationalError's info mapping is unchanged
after write_record_async.  Counterexample: with the policy flag true and an
operational error carrying a four-line stack trace, the error's info dict
after the call holds the trimmed two-line trace, differing from the
original info. -/
theorem C1_info_mutated_counterexample :
    (write_record_async true envMCE cbOK
        (Except.error (EmitException.operational errTrace)) SinkReport.empty).errorInfoAfter
      = some [("stackTrace", Value.str "a\nb")] ∧
    ([("stackTrace", Value.str "a\nb")] : InfoMap) ≠ errTrace.info := by
  constructor
  · rfl
  · decide

/-- C1 amended: the downgrade mutates the operational error's info mapping
in place: after write_record_async returns on the warning path, the error
object's info dict holds exactly the redacted mapping, and that same
mapping is what is passed to on_failure and stored in the warning entry
(no copy is made). -/
theorem C1_info_mutation_amended (e : OperationalError) (env : RecordEnvelope)
    (cb : CallbackBehavior) (report : SinkReport) :
    ∃ i,
      (write_record_async true env cb (Except.error (EmitException.operational e))
          report).errorInfoAfter = some i ∧
      (write_record_async true env cb (Except.error (EmitException.operational e))
          report).calls
        = [CallbackCall.onFailure env
            (EmitException.operational { message := e.message, info := i }) i] ∧
      (write_record_async true env cb (Except.error (EmitException.operational e))
          report).report.warnings
        = report.warnings ++ [ReportEntry.warningInfo e.message i] := by
  obtain ⟨r, wid⟩ := env
  cases r <;> exact ⟨_, rfl, rfl, rfl⟩

/-- C2: every write_record_async call performs exactly one callback
invocation, and that invocation is on_success exactly when the transport
emission succeeded; any exception from the emission still yields exactly
one on_failure invocation. -/
theorem C2_exactly_one_callback (flag : Bool) (env : RecordEnvelope)
    (cb : CallbackBehavior) (res : Except EmitException Unit) (report : SinkReport)
    (hs : cb.onSuccessExc = Option.none) :
    (write_record_async flag env cb res report).calls.length = 1 ∧
    ((write_record_async flag env cb res report).calls
        = [CallbackCall.onSuccess env []] ↔ res = Except.ok ()) := by
  cases res with
  | ok u =>
    cases u
    simp [write_record_async, hs]
  | error ex =>
    cases ex with
    | operational e => cases flag <;> simp [write_record_async, handleException]
    | otherExc pe => simp [write_record_async, handleException]

theorem C2_exactly_one_callback_witness :
    cbOK.onSuccessExc = Option.none ∧
    ((write_record_async true envMCPW cbOK
        (Except.error (EmitException.operational errTrace)) SinkReport.empty).calls.length = 1 ∧
    ((write_record_async true envMCPW cbOK
        (Except.error (EmitException.operational errTrace)) SinkReport.empty).calls
        = [CallbackCall.onSuccess envMCPW []] ↔
      (Except.error (EmitException.operational errTrace) : Except EmitException Unit)
        = Except.ok ())) :=
  ⟨rfl, C2_exactly_one_callback true envMCPW cbOK
    (Except.error (EmitException.operational errTrace)) SinkReport.empty rfl⟩

/-- C3: the claim states that no exception propagates out of
write_record_async, including failures raised by the callback invocation.
Counterexample: when the emission raises a plain exception and the
caller-supplied on_failure callback itself raises, that exception is
raised inside the except handler, is not caught by the sibling clause, and
propagates to the caller. -/
theorem C3_propagation_counterexample :
    (write_record_async false envMCE cbFailureRaises
        (Except.error (EmitException.otherExc peValue)) SinkReport.empty).raised
      = some (EmitException.otherExc
          { excName := "RuntimeError", excMessage := "callback boom" }) ∧
    (write_record_async false envMCE cbFailureRaises
        (Except.error (EmitException.otherExc peValue)) SinkReport.empty).raised
      ≠ Option.none := by
  constructor
  · rfl
  · decide

/-- C3 amended: no exception raised in the try-body (the transport
emission, the success-path report update, or the success callback)
propagates to the caller: each is caught by the except clauses and
converted into a Report update plus an on_failure invocation.  Only an
exception raised by the on_failure callback inside an except handler can
propagate, so whenever on_failure returns normally the call raises
nothing. -/
theorem C3_no_propagation_amended (flag : Bool) (env : RecordEnvelope)
    (cb : CallbackBehavior) (res : Except EmitException Unit) (report : SinkReport)
    (hf : cb.onFailureExc = Option.none) :
    (write_record_async flag env cb res report).raised = Option.none := by
  cases res with
  | ok u =>
    cases u
    cases hsx : cb.onSuccessExc with
    | none => simp [write_record_async, hsx]
    | some ex =>
      cases ex with
      | operational e => cases flag <;> simp [write_record_async, handleException, hsx, hf]
      | otherExc pe => simp [write_record_async, handleException, hsx, hf]
  | error ex =>
    cases ex with
    | operational e => cases flag <;> simp [write_record_async, handleException, hf]
    | otherExc pe => simp [write_record_async, handleException, hf]

theorem C3_no_propagation_amended_witness :
    cbOK.onFailureExc = Option.none ∧
    (write_record_async false envMCE cbOK
        (Except.error (EmitException.otherExc peValue)) SinkReport.empty).raised
      = Option.none :=
  ⟨rfl, C3_no_propagation_amended false envMCE cbOK
    (Except.error (EmitException.otherExc peValue)) SinkReport.empty rfl⟩

/-- The outcome of one write_record_async call on the warning path: the
latched policy flag is true and the emission raised an OperationalError. -/
def warningOutcome (e : OperationalError) (env : RecordEnvelope)
    (cb : CallbackBehavior) (report : SinkReport) : WriteOutcome :=
  write_record_async true env cb (Except.error (EmitException.operational e)) report

/-- The outcome of one write_record_async call on the failure path: the
latched policy flag is false and the emission raised an OperationalError. -/
def failureOutcome (e : OperationalError) (env : RecordEnvelope)
    (cb : CallbackBehavior) (report : SinkReport) : WriteOutcome :=
  write_record_async false env cb (Except.error (EmitException.operational e)) report

/-- C4: on the warning path an operational failure adds exactly one
warning entry (and no failure entry, no written record), the stored
info's stackTrace, when it was a string, is the first two lines of the
original joined with a newline, the entity identity is attached under an
id key exactly for the change-proposal-wrapper variant (otherwise the id
key is whatever the original info had), and on_failure receives the
error with its original message together with the redacted info. -/
theorem C4_warning_path (e : OperationalError) (env : RecordEnvelope)
    (cb : CallbackBehavior) (report : SinkReport)
    (hf : cb.onFailureExc = Option.none) :
    ∃ i,
      (warningOutcome e env cb report).report.warnings
        = report.warnings ++ [ReportEntry.warningInfo e.message i] ∧
      (warningOutcome e env cb report).report.failures = report.failures ∧
      (warningOutcome e env cb report).report.records_written = report.records_written ∧
      (∀ s, dictGet e.info "stackTrace" = some (Value.str s) →
        dictGet i "stackTrace"
          = some (Value.str (pyJoin "\n" ((pySplit '\n' s).take 2)))) ∧
      (∀ urn p, env.record = Record.metadataChangeProposalWrapper urn p →
        dictGet i "id" = some (optionalStr urn)) ∧
      ((∀ urn p, env.record ≠ Record.metadataChangeProposalWrapper urn p) →
        dictGet i "id" = dictGet e.info "id") ∧
      (warningOutcome e env cb report).calls
        = [CallbackCall.onFailure env
            (EmitException.operational { message := e.message, info := i }) i] ∧
      (warningOutcome e env cb report).raised = Option.none := by
  obtain ⟨r, wid⟩ := env
  cases r
  case metadataChangeProposalWrapper urn p =>
    refine ⟨dictSet (trimStackTrace e.info) "id" (optionalStr urn),
      rfl, rfl, rfl, ?_, ?_, ?_, rfl, ?_⟩
    · intro s hs
      rw [dictGet_dictSet_ne _ _ _ _ (by decide), dictGet_trimStackTrace_str e.info s hs]
    · intro urn' p' h
      injection h with h1 h2
      subst h1
      exact dictGet_dictSet_self _ _ _
    · intro hno
      exact absurd rfl (hno urn p)
    · simp [warningOutcome, write_record_async, handleException, hf]
  all_goals {
    refine ⟨trimStackTrace e.info, rfl, rfl, rfl, ?_, ?_, ?_, rfl, ?_⟩
    · intro s hs
      exact dictGet_trimStackTrace_str e.info s hs
    · intro urn' p' h
      simp at h
    · intro _
      exact dictGet_trimStackTrace_ne e.info "id" (by decide)
    · simp [warningOutcome, write_record_async, handleException, hf]
  }

theorem C4_warning_path_witness :
    cbOK.onFailureExc = Option.none ∧
    ∃ i,
      (warningOutcome errTrace envMCPW cbOK SinkReport.empty).report.warnings
        = SinkReport.empty.warnings ++ [ReportEntry.warningInfo errTrace.message i] ∧
      (warningOutcome errTrace envMCPW cbOK SinkReport.empty).report.failures
        = SinkReport.empty.failures ∧
      (warningOutcome errTrace envMCPW cbOK SinkReport.empty).report.records_written
        = SinkReport.empty.records_written ∧
      (∀ s, dictGet errTrace.info "stackTrace" = some (Value.str s) →
        dictGet i "stackTrace"
          = some (Value.str (pyJoin "\n" ((pySplit '\n' s).take 2)))) ∧
      (∀ urn p, envMCPW.record = Record.metadataChangeProposalWrapper urn p →
        dictGet i "id" = some (optionalStr urn)) ∧
      ((∀ urn p, envMCPW.record ≠ Record.metadataChangeProposalWrapper urn p) →
        dictGet i "id" = dictGet errTrace.info "id") ∧
      (warningOutcome errTrace envMCPW cbOK SinkReport.empty).calls
        = [CallbackCall.onFailure envMCPW
            (EmitException.operational { message := errTrace.message, info := i }) i] ∧
      (warningOutcome errTrace envMCPW cbOK SinkReport.empty).raised = Option.none :=
  ⟨rfl, C4_warning_path errTrace envMCPW cbOK SinkReport.empty rfl⟩

/-- C5: on the failure path (policy flag false) an operational failure
adds exactly one failure entry holding the original message and the
unmodified info dict, the error's info dict is left unchanged, and
on_failure receives the original error with its original info. -/
theorem C5_failure_path (e : OperationalError) (env : RecordEnvelope)
    (cb : CallbackBehavior) (report : SinkReport)
    (hf : cb.onFailureExc = Option.none) :
    (failureOutcome e env cb report).report.failures
      = report.failures ++ [ReportEntry.failureErrorInfo e.message e.info] ∧
    (failureOutcome e env cb report).report.warnings = report.warnings ∧
    (failureOutcome e env cb report).report.records_written = report.records_written ∧
    (failureOutcome e env cb report).errorInfoAfter = some e.info ∧
    (failureOutcome e env cb report).calls
      = [CallbackCall.onFailure env (EmitException.operational e) e.info] ∧
    (failureOutcome e env cb report).raised = Option.none := by
  refine ⟨rfl, rfl, rfl, rfl, rfl, ?_⟩
  simp [failureOutcome, write_record_async, handleException, hf]

theorem C5_failure_path_witness :
    cbOK.onFailureExc = Option.none ∧
    ((failureOutcome errTrace envMCE cbOK SinkReport.empty).report.failures
      = SinkReport.empty.failures
          ++ [ReportEntry.failureErrorInfo errTrace.message errTrace.info] ∧
    (failureOutcome errTrace envMCE cbOK SinkReport.empty).report.warnings
      = SinkReport.empty.warnings ∧
    (failureOutcome errTrace envMCE cbOK SinkReport.empty).report.records_written
      = SinkReport.empty.records_written ∧
    (failureOutcome errTrace envMCE cbOK SinkReport.empty).errorInfoAfter
      = some errTrace.info ∧
    (failureOutcome errTrace envMCE cbOK SinkReport.empty).calls
      = [CallbackCall.onFailure envMCE
          (EmitException.operational errTrace) errTrace.info] ∧
    (failureOutcome errTrace envMCE cbOK SinkReport.empty).raised = Option.none) :=
  ⟨rfl, C5_failure_path errTrace envMCE cbOK SinkReport.empty rfl⟩

/-- C6: any non-operational exception from the emission adds exactly one
failure entry holding the raw exception, regardless of the policy flag,
with no redaction, and on_failure receives the envelope, the raw error
and an empty info map. -/
theorem C6_unexpected_path (pe : PyException) (flag : Bool) (env : RecordEnvelope)
    (cb : CallbackBehavior) (report : SinkReport)
    (hf : cb.onFailureExc = Option.none) :
    (write_record_async flag env cb (Except.error (EmitException.otherExc pe))
        report).report.failures = report.failures ++ [ReportEntry.failureExc pe] ∧
    (write_record_async flag env cb (Except.error (EmitException.otherExc pe))
        report).report.warnings = report.warnings ∧
    (write_record_async flag env cb (Except.error (EmitException.otherExc pe))
        report).report.records_written = report.records_written ∧
    (write_record_async flag env cb (Except.error (EmitException.otherExc pe))
        report).calls
      = [CallbackCall.onFailure env (EmitException.otherExc pe) []] ∧
    (write_record_async flag env cb (Except.error (EmitException.otherExc pe))
        report).raised = Option.none := by
  refine ⟨rfl, rfl, rfl, rfl, ?_⟩
  simp [write_record_async, handleException, hf]

theorem C6_unexpected_path_witness :
    cbOK.onFailureExc = Option.none ∧
    ((write_record_async true envMCE cbOK
        (Except.error (EmitException.otherExc peValue))
        SinkReport.empty).report.failures
      = SinkReport.empty.failures ++ [ReportEntry.failureExc peValue] ∧
    (write_record_async true envMCE cbOK
        (Except.error (EmitException.otherExc peValue))
        SinkReport.empty).report.warnings = SinkReport.empty.warnings ∧
    (write_record_async true envMCE cbOK
        (Except.error (EmitException.otherExc peValue))
        SinkReport.empty).report.records_written = SinkReport.empty.records_written ∧
    (write_record_async true envMCE cbOK
        (Except.error (EmitException.otherExc peValue))
        SinkReport.empty).calls
      = [CallbackCall.onFailure envMCE (EmitException.otherExc peValue) []] ∧
    (write_record_async true envMCE cbOK
        (Except.error (EmitException.otherExc peValue))
        SinkReport.empty).raised = Option.none) :=
  ⟨rfl, C6_unexpected_path peValue true envMCE cbOK SinkReport.empty rfl⟩

lemma write_total_step (flag : Bool) (env : RecordEnvelope) (cb : CallbackBehavior)
    (res : Except EmitException Unit) (report : SinkReport)
    (hs : cb.onSuccessExc = Option.none) :
    (write_record_async flag env cb res report).report.total = report.total + 1 := by
  cases res with
  | ok u =>
    cases u
    simp [write_record_async, hs, SinkReport.total, SinkReport.report_record_written]
    omega
  | error ex =>
    cases ex with
    | operational e =>
      cases flag with
      | true =>
        simp [write_record_async, handleException, SinkReport.total,
          SinkReport.report_warning]
        omega
      | false =>
        simp [write_record_async, handleException, SinkReport.total,
          SinkReport.report_failure]
        omega
    | otherExc pe =>
      simp [write_record_async, handleException, SinkReport.total,
        SinkReport.report_failure]
      omega

/-- C7: after a sequence of write_record_async calls whose callbacks all
returned, the report satisfies written plus warned plus failed equals the
number of records submitted: each call contributes exactly one written
record, one warning entry, or one failure entry. -/
theorem C7_report_invariant (cb : CallbackBehavior)
    (hs : cb.onSuccessExc = Option.none)
    (subs : List (Bool × RecordEnvelope × Except EmitException Unit))
    (report : SinkReport) :
    (runSink cb report subs).total = report.total + subs.length := by
  induction subs generalizing report with
  | nil => simp [runSink]
  | cons sub rest ih =>
    obtain ⟨flag, env, res⟩ := sub
    simp only [runSink, List.length_cons]
    rw [ih, write_total_step flag env cb res report hs]
    omega

/-- A three-record run: one success, one operational error under the
warning policy, one plain runtime fault. -/
def subsThree : List (Bool × RecordEnvelope × Except EmitException Unit) :=
  [(false, envMCE, Except.ok ()),
   (true, envMCE, Except.error (EmitException.operational errTrace)),
   (true, envMCE, Except.error (EmitException.otherExc peValue))]

theorem C7_report_invariant_witness :
    cbOK.onSuccessExc = Option.none ∧
    (runSink cbOK SinkReport.empty subsThree).total
      = SinkReport.empty.total + subsThree.length :=
  ⟨rfl, C7_report_invariant cbOK rfl subsThree SinkReport.empty⟩

/-- C8: the routing of an emission exception is type-level only: the
operational handler runs (observable through the error-info state it
records) exactly when the exception is an instance of the structured
OperationalError kind, and replacing the exception's message never
changes either the classification or the routing. -/
theorem C8_type_level_classification (flag : Bool) (env : RecordEnvelope)
    (cb : CallbackBehavior) (report : SinkReport) (ex : EmitException) :
    ((write_record_async flag env cb (Except.error ex) report).errorInfoAfter.isSome
        ↔ classify ex = true) ∧
    (classify ex = true ↔ ∃ e, ex = EmitException.operational e) ∧
    (∀ m, classify (withMessage ex m) = classify ex) ∧
    (∀ m, (write_record_async flag env cb (Except.error (withMessage ex m))
          report).errorInfoAfter.isSome
        = (write_record_async flag env cb (Except.error ex)
          report).errorInfoAfter.isSome) := by
  cases ex with
  | operational e =>
    cases flag <;>
      simp [write_record_async, handleException, classify, withMessage]
  | otherExc pe =>
    simp [write_record_async, handleException, classify, withMessage]

/-- C9: on the warning path, when the stackTrace value makes the trimming
computation raise (any non-string value), the failure is swallowed: the
pre-trimming value is kept unchanged in the recorded diagnostic, the
warning entry and the on_failure invocation still happen, and nothing
propagates out of write_record_async. -/
theorem C9_trim_failure_swallowed (e : OperationalError) (env : RecordEnvelope)
    (cb : CallbackBehavior) (report : SinkReport) (v : Value)
    (hf : cb.onFailureExc = Option.none)
    (hst : dictGet e.info "stackTrace" = some v)
    (hv : trimValue v = Option.none) :
    ∃ i,
      (warningOutcome e env cb report).report.warnings
        = report.warnings ++ [ReportEntry.warningInfo e.message i] ∧
      dictGet i "stackTrace" = some v ∧
      (warningOutcome e env cb report).calls
        = [CallbackCall.onFailure env
            (EmitException.operational { message := e.message, info := i }) i] ∧
      (warningOutcome e env cb report).raised = Option.none := by
  have htrim : trimStackTrace e.info = e.info := trimStackTrace_of_fail e.info v hst hv
  obtain ⟨r, wid⟩ := env
  cases r
  case metadataChangeProposalWrapper urn p =>
    refine ⟨dictSet (trimStackTrace e.info) "id" (optionalStr urn), rfl, ?_, rfl, ?_⟩
    · rw [dictGet_dictSet_ne _ _ _ _ (by decide), htrim, hst]
    · simp [warningOutcome, write_record_async, handleException, hf]
  all_goals {
    refine ⟨trimStackTrace e.info, rfl, ?_, rfl, ?_⟩
    · rw [htrim, hst]
    · simp [warningOutcome, write_record_async, handleException, hf]
  }

/-- An operational error whose stackTrace value is not a string, so the
trimming expression raises. -/
def errBadTrace : OperationalError :=
  { message := "op fail", info := [("stackTrace", Value.intVal 7)] }

theorem C9_trim_failure_swallowed_witness :
    (cbOK.onFailureExc = Option.none ∧
     dictGet errBadTrace.info "stackTrace" = some (Value.intVal 7) ∧
     trimValue (Value.intVal 7) = Option.none) ∧
    ∃ i,
      (warningOutcome errBadTrace envMCE cbOK SinkReport.empty).report.warnings
        = SinkReport.empty.warnings ++ [ReportEntry.warningInfo errBadTrace.message i] ∧
      dictGet i "stackTrace" = some (Value.intVal 7) ∧
      (warningOutcome errBadTrace envMCE cbOK SinkReport.empty).calls
        = [CallbackCall.onFailure envMCE
            (EmitException.operational { message := errBadTrace.message, info := i }) i] ∧
      (warningOutcome errBadTrace envMCE cbOK SinkReport.empty).raised = Option.none :=
  ⟨⟨rfl, by decide, rfl⟩,
   C9_trim_failure_swallowed errBadTrace envMCE cbOK SinkReport.empty
     (Value.intVal 7) rfl (by decide) rfl⟩

/-- C10: a newly constructed sink latches treat_errors_as_warnings as
false (the dataclass default, never assigned in the handwritten
constructor), so an operational failure submitted before any metadata
work-unit start is recorded as a failure and not a warning, and a
work-unit-start notification for a non-metadata work unit leaves the sink
state unchanged. -/
theorem C10_initial_policy (e : OperationalError) (env : RecordEnvelope)
    (cb : CallbackBehavior) (report : SinkReport) (s : SinkState) (wid : String) :
    DatahubRestSink.init.treat_errors_as_warnings = false ∧
    (write_record_async DatahubRestSink.init.treat_errors_as_warnings env cb
        (Except.error (EmitException.operational e)) report).report.failures
      = report.failures ++ [ReportEntry.failureErrorInfo e.message e.info] ∧
    (write_record_async DatahubRestSink.init.treat_errors_as_warnings env cb
        (Except.error (EmitException.operational e)) report).report.warnings
      = report.warnings ∧
    handle_work_unit_start s (WorkUnit.nonMetadata wid) = s :=
  ⟨rfl, rfl, rfl, rfl⟩
